import Mathlib

/-!
# Verification of the grpc-svc/sso authentication core

Shallow embedding of the repository's authentication domain service and its
collaborating primitives, translated from the Go sources:

* `src/internal/lib/hash/argon2.go` — password hashing / verification
  (namespace `Hash`);
* `src/unnamed/part_003` (package `keygen`) — RSA key pair generation and
  PEM parsing (namespace `Keygen`);
* `src/internal/lib/jwt/jwt.go` and `src/unnamed/part_002` — token issuance
  (namespace `Jwt`);
* `src/internal/services/auth/auth.go` — the Authentication Service, first
  revision (namespace `AuthV1`);
* `src/unnamed/part_003` (package `auth`) — the Authentication Service,
  second revision (namespace `AuthV2`);
* `src/internal/storage/sqlite/sqlite.go`, `src/unnamed/part_000` and
  `src/migrations/1_init.up.sql` — the sqlite Account Directory (namespace
  `Sqlite`).

External libraries (argon2, crypto/rand, crypto/subtle, crypto/rsa,
encoding/pem, crypto/x509, golang-jwt) are modelled by executable Lean
functions capturing their documented contracts; byte strings are `List Nat`.
-/

set_option autoImplicit false

namespace SSO

/-! ## Password hasher: `src/internal/lib/hash/argon2.go` -/

namespace Hash

/-- `timeCost = 1` (argon2.go line 12). -/
def timeCost : Nat := 1

/-- `memoryCost = 64 * 1024` (argon2.go line 13). -/
def memoryCost : Nat := 64 * 1024

/-- `parallelism = 4` (argon2.go line 14). -/
def parallelism : Nat := 4

/-- `keyLength = 32` (argon2.go line 15): fixed length of the derived hash. -/
def keyLength : Nat := 32

/-- `saltLength = 16` (argon2.go line 16): fixed length of the random salt. -/
def saltLength : Nat := 16

/-- The distinct error values built by `fmt.Errorf` in argon2.go:
`emptyPassword` is the spec's `EmptyInput`; `invalidSaltLength` and
`invalidHashLength` together are the spec's `InvalidInputShape`. -/
inductive HashError where
  | emptyPassword
  | saltGenFailed
  | invalidSaltLength
  | invalidHashLength
  | mismatch
  deriving DecidableEq, Repr

/-- Model of the external `argon2.IDKey(password, salt, time, memory,
threads, keyLen)`: a deterministic key-derivation function whose output
length is exactly `keyLen`, the only two properties of the external
library the repository code relies on. -/
def argon2IDKey (password salt : List Nat) (time memory threads keyLen : Nat) :
    List Nat :=
  (List.range keyLen).map
    (fun i => (password.foldl (fun a b => a * 31 + b) 7 +
               salt.foldl (fun a b => a * 17 + b) 3 +
               time + memory + threads + i) % 256)

theorem argon2IDKey_length (password salt : List Nat)
    (time memory threads keyLen : Nat) :
    (argon2IDKey password salt time memory threads keyLen).length = keyLen := by
  simp [argon2IDKey]

/-- Model of the external `subtle.ConstantTimeCompare`: `1` when the two
byte slices have equal lengths and contents, `0` otherwise. -/
def constantTimeCompare (x y : List Nat) : Nat :=
  if x = y then 1 else 0

/-- The `PasswordData` struct of argon2.go. -/
structure PasswordData where
  hash : List Nat
  salt : List Nat
  deriving DecidableEq, Repr

/-- `HashPassword` (argon2.go lines 25–41).  The external `rand.Read` is
modelled by `randRead : Nat → Option (List Nat)`: asked for `n` bytes it
either fails (`none`, the `failed to generate salt` branch) or produces the
buffer contents. -/
def HashPassword (randRead : Nat → Option (List Nat)) (password : List Nat) :
    Except HashError PasswordData :=
  if password = [] then
    .error .emptyPassword
  else
    match randRead saltLength with
    | none => .error .saltGenFailed
    | some salt =>
        .ok ⟨argon2IDKey password salt timeCost memoryCost parallelism keyLength,
             salt⟩

/-- `ComparePassword` (argon2.go lines 44–63): salt-length check, then
hash-length check, then empty-password check, then recompute and compare in
constant time. -/
def ComparePassword (password salt originalHash : List Nat) :
    Except HashError Unit :=
  if salt.length ≠ saltLength then
    .error .invalidSaltLength
  else if originalHash.length ≠ keyLength then
    .error .invalidHashLength
  else if password = [] then
    .error .emptyPassword
  else
    let newHash := argon2IDKey password salt timeCost memoryCost parallelism keyLength
    if constantTimeCompare originalHash newHash ≠ 1 then
      .error .mismatch
    else
      .ok ()

end Hash

/-! ## Key-pair generator / parser: package `keygen` in `src/unnamed/part_003` -/

namespace Keygen

/-- Model of `crypto/rsa`'s private key: the fields the repository observes
are its size in bits and its identity (`seed` distinguishes distinct keys
of the same size). -/
structure RSAPrivateKey where
  bits : Nat
  seed : Nat
  deriving DecidableEq, Repr

/-- Model of `crypto/rsa`'s public key. -/
structure RSAPublicKey where
  bits : Nat
  seed : Nat
  deriving DecidableEq, Repr

/-- `privateKey.PublicKey` in Go: the public half embedded in the private
key. -/
def RSAPrivateKey.publicKey (k : RSAPrivateKey) : RSAPublicKey :=
  ⟨k.bits, k.seed⟩

/-- Model of DER payloads as the external `crypto/x509` codec classifies
them: a PKCS#1 private key, a PKIX public key, or anything else. -/
inductive DerBytes where
  | pkcs1Priv (k : RSAPrivateKey)
  | pkixPub (k : RSAPublicKey)
  | raw (bytes : List Nat)
  deriving DecidableEq, Repr

/-- Model of `x509.MarshalPKCS1PrivateKey`. -/
def x509MarshalPKCS1PrivateKey (k : RSAPrivateKey) : DerBytes :=
  .pkcs1Priv k

/-- Model of `x509.ParsePKCS1PrivateKey`: succeeds exactly on DER that a
PKCS#1 private-key marshal produced. -/
def x509ParsePKCS1PrivateKey : DerBytes → Except Unit RSAPrivateKey
  | .pkcs1Priv k => .ok k
  | _ => .error ()

/-- Model of `x509.MarshalPKIXPublicKey` on an RSA public key (the only
case the repository exercises; it cannot fail there). -/
def x509MarshalPKIXPublicKey (k : RSAPublicKey) : DerBytes :=
  .pkixPub k

/-- A PEM block: a type label and the DER payload. -/
structure PemBlock where
  type : String
  bytes : DerBytes
  deriving DecidableEq, Repr

/-- Model of PEM-encoded text as `encoding/pem`'s scanner sees it: empty,
leading non-PEM data followed by more text, or a well-formed block followed
by the remaining text. -/
inductive PemText where
  | empty
  | junkThen (rest : PemText)
  | block (b : PemBlock) (rest : PemText)
  deriving DecidableEq, Repr

/-- Model of `pem.EncodeToMemory`: emits exactly one well-formed block with
nothing before or after it. -/
def pemEncodeToMemory (b : PemBlock) : PemText :=
  .block b .empty

/-- Model of `pem.Decode`: skips leading non-PEM data, returns the first
block and the remaining text, or `none` when no block is found. -/
def pemDecode : PemText → Option (PemBlock × PemText)
  | .empty => none
  | .junkThen rest => pemDecode rest
  | .block b rest => some (b, rest)

/-- The error values of the `keygen` package. -/
inductive KeygenError where
  | genFailed
  | noPemBlock
  | trailingData
  | parseFailed
  deriving DecidableEq, Repr

/-- The `KeyPair` struct of the `keygen` package. -/
structure KeyPair where
  privateKey : PemText
  publicKey : PemText
  deriving DecidableEq, Repr

/-- `GenerateRSAKeyPair` (part_003 lines 18–51).  The external
`rsa.GenerateKey` is modelled by the parameter `genKey`. -/
def GenerateRSAKeyPair (genKey : Nat → Except Unit RSAPrivateKey)
    (bits : Nat) : Except KeygenError KeyPair :=
  match genKey bits with
  | .error _ => .error .genFailed
  | .ok privateKey =>
      let privateKeyBytes := x509MarshalPKCS1PrivateKey privateKey
      let privateKeyPEM := pemEncodeToMemory ⟨"RSA PRIVATE KEY", privateKeyBytes⟩
      let publicKeyBytes := x509MarshalPKIXPublicKey privateKey.publicKey
      let publicKeyPEM := pemEncodeToMemory ⟨"PUBLIC KEY", publicKeyBytes⟩
      .ok ⟨privateKeyPEM, publicKeyPEM⟩

/-- `ParseRSAPrivateKey` (part_003 lines 54–69): decode the first PEM
block, reject trailing data, then parse the DER as PKCS#1. -/
def ParseRSAPrivateKey (pemKey : PemText) : Except KeygenError RSAPrivateKey :=
  match pemDecode pemKey with
  | none => .error .noPemBlock
  | some (blk, rest) =>
      if rest ≠ .empty then .error .trailingData
      else
        match x509ParsePKCS1PrivateKey blk.bytes with
        | .error _ => .error .parseFailed
        | .ok privateKey => .ok privateKey

end Keygen

/-! ## Domain models: `src/internal/domain/models` -/

namespace Models

/-- `models.User` as consumed by the service and scanned by the sqlite
storage (`id`, `email`, `password_hash`, `password_salt`). -/
structure User where
  id : Int
  email : String
  passwordHash : List Nat
  passwordSalt : List Nat
  deriving DecidableEq, Repr

/-- `models.App` (`src/internal/domain/models/app.go`): the PEM-encoded
key strings are modelled as `Keygen.PemText`. -/
structure App where
  id : Int
  name : String
  privateKey : Keygen.PemText
  publicKey : Keygen.PemText
  deriving DecidableEq, Repr

end Models

/-! ## Token issuer: `src/internal/lib/jwt/jwt.go` / `src/unnamed/part_002` -/

namespace Jwt

/-- A JWT claim value (the repository stores integers and strings). -/
inductive ClaimVal where
  | int (i : Int)
  | str (s : String)
  deriving DecidableEq, Repr

/-- Go `jwt.MapClaims` assignment `claims[k] = v`: map semantics, the new
binding replaces any previous binding of `k`. -/
def mapClaimsSet (m : List (String × ClaimVal)) (k : String) (v : ClaimVal) :
    List (String × ClaimVal) :=
  (k, v) :: m.filter (fun p => !(p.1 == k))

/-- Claim lookup, as a verifier decoding the token would perform it. -/
def claimsLookup : List (String × ClaimVal) → String → Option ClaimVal
  | [], _ => none
  | (k', v) :: rest, k => if k' = k then some v else claimsLookup rest k

/-- Model of a signed JWS compact serialization: the claim set it encodes
and the key that signed it (both recoverable by a verifier). -/
structure SignedJwt where
  claims : List (String × ClaimVal)
  signedWith : Keygen.RSAPrivateKey
  deriving DecidableEq, Repr

/-- The two failure modes of `NewToken`: the key-parse branch
(`failed to parse private key`) and the signing branch
(`failed to sign token`). -/
inductive TokenError where
  | keyParseFailed
  | signingFailed
  deriving DecidableEq, Repr

/-- `NewToken` (jwt.go lines 15–38, identical logic in part_002): build the
four claims `uid`, `email`, `app_id`, `exp = now + duration`, parse the
app's private key, sign.  The external signing primitive
(`token.SignedString`) is the parameter `sign`; the wall clock
(`time.Now()`) is the parameter `now`. -/
def NewToken
    (sign : List (String × ClaimVal) → Keygen.RSAPrivateKey →
      Except Unit SignedJwt)
    (now : Int) (user : Models.User) (app : Models.App) (duration : Int) :
    Except TokenError SignedJwt :=
  let claims :=
    mapClaimsSet
      (mapClaimsSet
        (mapClaimsSet
          (mapClaimsSet [] "uid" (.int user.id))
          "email" (.str user.email))
        "app_id" (.int app.id))
      "exp" (.int (now + duration))
  match Keygen.ParseRSAPrivateKey app.privateKey with
  | .error _ => .error .keyParseFailed
  | .ok privateKey =>
      match sign claims privateKey with
      | .error _ => .error .signingFailed
      | .ok tokenString => .ok tokenString

end Jwt

/-! ## Storage error kinds: package `storage` in `src/unnamed/part_000` -/

namespace Storage

/-- The sentinel errors of the storage package (`ErrUserExists`,
`ErrUserNotFound`, `ErrAppNotFound`) plus `other` for any further failure
a directory implementation may return. -/
inductive StorageError where
  | userExists
  | userNotFound
  | appNotFound
  | other (code : Nat)
  deriving DecidableEq, Repr

end Storage

/-! ## sqlite Account Directory: `src/internal/storage/sqlite/sqlite.go`
with the schema of `src/migrations/1_init.up.sql` -/

namespace Sqlite

/-- A row of the `users` table (`id INTEGER PRIMARY KEY`, `email TEXT NOT
NULL UNIQUE`, `password_hash`, `password_salt`, `is_admin` defaulting to
false). -/
structure UserRow where
  id : Int
  email : String
  passwordHash : List Nat
  passwordSalt : List Nat
  isAdmin : Bool
  deriving DecidableEq, Repr

/-- sqlite's rowid assignment for `INTEGER PRIMARY KEY`: one more than the
largest existing id (`LastInsertId` returns it). -/
def nextId (db : List UserRow) : Int :=
  (db.foldl (fun m r => max m r.id) 0) + 1

/-- `SaveUser` (sqlite.go): `INSERT INTO users ...`; the UNIQUE constraint
on `email` makes a duplicate fail with `storage.ErrUserExists` and leave
the table unchanged, otherwise the row is inserted and its new id
returned. -/
def SaveUser (db : List UserRow) (email : String)
    (passwordHash passwordSalt : List Nat) :
    List UserRow × Except Storage.StorageError Int :=
  if db.any (fun r => r.email == email) then
    (db, .error .userExists)
  else
    let id := nextId db
    (db ++ [⟨id, email, passwordHash, passwordSalt, false⟩], .ok id)

end Sqlite

/-! ## Authentication service error taxonomy -/

namespace Auth

/-- The error kinds a caller can distinguish (by `errors.Is`) on the
values the two service revisions return: the domain sentinels declared in
the `auth` packages, plus propagated (wrapped, kind-preserving) storage,
hasher and token-issuer errors. -/
inductive AuthError where
  | invalidCredentials
  | invalidAppID
  | userExists
  | userNotFound
  | storageErr (e : Storage.StorageError)
  | hashErr (e : Hash.HashError)
  | tokenErr (e : Jwt.TokenError)
  deriving DecidableEq, Repr

end Auth

/-! ## Authentication Service, revision 1:
`src/internal/services/auth/auth.go` -/

namespace AuthV1

/-- `Auth.Login` (auth.go lines 59–111).  The Account Directory is the
pair of parameters `userFn` (`usrProvider.User`) and `appFn`
(`appProvider.App`); `sign`/`now` are threaded to the token issuer.  A
user-lookup `ErrUserNotFound` and *any* password-verification failure map
to `ErrInvalidCredentials`; an app-lookup `ErrAppNotFound` also maps to
`ErrInvalidCredentials` in this revision; everything else propagates. -/
def Login
    (userFn : String → Except Storage.StorageError Models.User)
    (appFn : Int → Except Storage.StorageError Models.App)
    (sign : List (String × Jwt.ClaimVal) → Keygen.RSAPrivateKey →
      Except Unit Jwt.SignedJwt)
    (now tokenTTL : Int)
    (email : String) (password : List Nat) (appID : Int) :
    Except Auth.AuthError Jwt.SignedJwt :=
  match userFn email with
  | .error e =>
      if e = .userNotFound then .error .invalidCredentials
      else .error (.storageErr e)
  | .ok user =>
      match Hash.ComparePassword password user.passwordSalt user.passwordHash with
      | .error _ => .error .invalidCredentials
      | .ok _ =>
          match appFn appID with
          | .error e =>
              if e = .appNotFound then .error .invalidCredentials
              else .error (.storageErr e)
          | .ok app =>
              match Jwt.NewToken sign now user app tokenTTL with
              | .error e => .error (.tokenErr e)
              | .ok token => .ok token

/-- `Auth.Register` (auth.go lines 114–140): hash, then save; every
save failure propagates unchanged (no domain mapping in this revision).
The directory is a stateful saver over an arbitrary state type `σ`. -/
def Register {σ : Type} (randRead : Nat → Option (List Nat))
    (saveUser : σ → String → List Nat → List Nat →
      σ × Except Storage.StorageError Int)
    (st : σ) (email : String) (password : List Nat) :
    σ × Except Auth.AuthError Int :=
  match Hash.HashPassword randRead password with
  | .error e => (st, .error (.hashErr e))
  | .ok passData =>
      match saveUser st email passData.hash passData.salt with
      | (st', .error e) => (st', .error (.storageErr e))
      | (st', .ok userID) => (st', .ok userID)

/-- `Auth.IsAdmin` (auth.go lines 143–161): every directory failure
propagates unchanged (no domain mapping in this revision). -/
def IsAdmin (isAdminFn : Int → Except Storage.StorageError Bool)
    (userID : Int) : Except Auth.AuthError Bool :=
  match isAdminFn userID with
  | .error e => .error (.storageErr e)
  | .ok isAdmin => .ok isAdmin

end AuthV1

/-! ## Authentication Service, revision 2: package `auth` in
`src/unnamed/part_003` -/

namespace AuthV2

/-- `Auth.Login` (part_003 lines 150–205): as revision 1, except an
app-lookup `ErrAppNotFound` maps to the distinct `ErrInvalidAppID`. -/
def Login
    (userFn : String → Except Storage.StorageError Models.User)
    (appFn : Int → Except Storage.StorageError Models.App)
    (sign : List (String × Jwt.ClaimVal) → Keygen.RSAPrivateKey →
      Except Unit Jwt.SignedJwt)
    (now tokenTTL : Int)
    (email : String) (password : List Nat) (appID : Int) :
    Except Auth.AuthError Jwt.SignedJwt :=
  match userFn email with
  | .error e =>
      if e = .userNotFound then .error .invalidCredentials
      else .error (.storageErr e)
  | .ok user =>
      match Hash.ComparePassword password user.passwordSalt user.passwordHash with
      | .error _ => .error .invalidCredentials
      | .ok _ =>
          match appFn appID with
          | .error e =>
              if e = .appNotFound then .error .invalidAppID
              else .error (.storageErr e)
          | .ok app =>
              match Jwt.NewToken sign now user app tokenTTL with
              | .error e => .error (.tokenErr e)
              | .ok token => .ok token

/-- `Auth.Register` (part_003 lines 208–237): a save failure that is
`storage.ErrUserExists` maps to the domain `ErrUserExists`; any other
save failure propagates unchanged. -/
def Register {σ : Type} (randRead : Nat → Option (List Nat))
    (saveUser : σ → String → List Nat → List Nat →
      σ × Except Storage.StorageError Int)
    (st : σ) (email : String) (password : List Nat) :
    σ × Except Auth.AuthError Int :=
  match Hash.HashPassword randRead password with
  | .error e => (st, .error (.hashErr e))
  | .ok passData =>
      match saveUser st email passData.hash passData.salt with
      | (st', .error e) =>
          if e = .userExists then (st', .error .userExists)
          else (st', .error (.storageErr e))
      | (st', .ok userID) => (st', .ok userID)

/-- `Auth.IsAdmin` (part_003 lines 240–262): a directory
`ErrUserNotFound` maps to the domain `ErrUserNotFound`; any other failure
propagates unchanged; the flag is returned verbatim. -/
def IsAdmin (isAdminFn : Int → Except Storage.StorageError Bool)
    (userID : Int) : Except Auth.AuthError Bool :=
  match isAdminFn userID with
  | .error e =>
      if e = .userNotFound then .error .userNotFound
      else .error (.storageErr e)
  | .ok isAdmin => .ok isAdmin

end AuthV2

/-! ## Concrete demonstration instances used by the witnesses -/

def demoRand : Nat → Option (List Nat) := fun n => some (List.replicate n 0)

def demoSalt : List Nat := List.replicate 16 0

def demoPassword : List Nat := [1, 2, 3]

/-- The `PasswordData` that `HashPassword demoRand demoPassword` produces. -/
def demoPD : Hash.PasswordData :=
  ⟨Hash.argon2IDKey demoPassword demoSalt Hash.timeCost Hash.memoryCost
     Hash.parallelism Hash.keyLength, demoSalt⟩

/-- A model RSA key generator meeting the `rsa.GenerateKey` contract. -/
def demoGenKey : Nat → Except Unit Keygen.RSAPrivateKey := fun bits =>
  .ok ⟨bits, 0⟩

/-- The key pair `GenerateRSAKeyPair demoGenKey 2048` produces. -/
def demoKeyPair : Keygen.KeyPair :=
  ⟨Keygen.pemEncodeToMemory
     ⟨"RSA PRIVATE KEY", Keygen.x509MarshalPKCS1PrivateKey ⟨2048, 0⟩⟩,
   Keygen.pemEncodeToMemory
     ⟨"PUBLIC KEY", Keygen.x509MarshalPKIXPublicKey
        (Keygen.RSAPrivateKey.publicKey ⟨2048, 0⟩)⟩⟩

/-- A user whose stored hash/salt are exactly what registering with
password `[1, 2, 3]` under `demoRand` stores. -/
def demoUser : Models.User := ⟨7, "a@x.com", demoPD.hash, demoSalt⟩

/-- An app provisioned with the generated demo key pair. -/
def demoApp : Models.App := ⟨1, "Test", demoKeyPair.privateKey, demoKeyPair.publicKey⟩

/-- A model signing primitive meeting the JWS contract: the produced token
carries exactly the claims handed to it. -/
def demoSign : List (String × Jwt.ClaimVal) → Keygen.RSAPrivateKey →
    Except Unit Jwt.SignedJwt :=
  fun claims key => .ok ⟨claims, key⟩

/-- A directory whose only user is `demoUser`. -/
def demoUserFn : String → Except Storage.StorageError Models.User :=
  fun email => if email = "a@x.com" then .ok demoUser else .error .userNotFound

/-- A directory holding no user at all. -/
def demoNoUserFn : String → Except Storage.StorageError Models.User :=
  fun _ => .error .userNotFound

/-- A directory whose only app is `demoApp`. -/
def demoAppFn : Int → Except Storage.StorageError Models.App :=
  fun appID => if appID = 1 then .ok demoApp else .error .appNotFound

/-- A directory with no app provisioned. -/
def demoAppMissingFn : Int → Except Storage.StorageError Models.App :=
  fun _ => .error .appNotFound

/-- A user whose stored salt and hash are corrupted (wrong lengths). -/
def demoCorruptUser : Models.User := ⟨8, "b@x.com", [], []⟩

/-- A directory whose only user record is corrupted. -/
def demoCorruptUserFn : String → Except Storage.StorageError Models.User :=
  fun _ => .ok demoCorruptUser

/-- An admin-flag reader that knows no user. -/
def demoIsAdminMissingFn : Int → Except Storage.StorageError Bool :=
  fun _ => .error .userNotFound

/-- The sqlite row for `demoUser`. -/
def demoRow : Sqlite.UserRow := ⟨7, "a@x.com", demoPD.hash, demoSalt, false⟩

/-- A users table already holding `demoUser`'s email. -/
def demoDb : List Sqlite.UserRow := [demoRow]

/-- The token `NewToken demoSign 100 demoUser demoApp 3600` issues. -/
def demoToken : Jwt.SignedJwt :=
  ⟨[("exp", .int (100 + 3600)), ("app_id", .int 1),
    ("email", .str "a@x.com"), ("uid", .int 7)], ⟨2048, 0⟩⟩

/-! ## Claims C4, C5, C6 — password hasher -/

/-- C4: for every non-empty password `p`, if `HashPassword` succeeds with
`(hash, salt)` then `ComparePassword p salt hash` reports a match (the
hasher round-trips over its own output).  `hrand` is the contract of the
external `rand.Read`: on success the buffer of the requested size is
filled. -/
theorem c4_hash_verify_roundtrip
    (randRead : Nat → Option (List Nat)) (password : List Nat)
    (pd : Hash.PasswordData)
    (hrand : ∀ n s, randRead n = some s → s.length = n)
    (hne : password ≠ [])
    (hok : Hash.HashPassword randRead password = .ok pd) :
    Hash.ComparePassword password pd.salt pd.hash = .ok () := by
  unfold Hash.HashPassword at hok
  rw [if_neg hne] at hok
  cases hsalt : randRead Hash.saltLength with
  | none => rw [hsalt] at hok; exact absurd hok (by simp)
  | some salt =>
      rw [hsalt] at hok
      have hpd := (Except.ok.inj hok).symm
      subst hpd
      have hslen : salt.length = Hash.saltLength := hrand _ _ hsalt
      simp [Hash.ComparePassword, hslen, Hash.argon2IDKey_length, hne,
        Hash.constantTimeCompare]

theorem demoRand_spec : ∀ n s, demoRand n = some s → s.length = n := by
  intro n s hs
  cases hs
  simp

/-- C4 witness at the concrete password `[1, 2, 3]`. -/
theorem c4_witness :
    Hash.ComparePassword demoPassword demoPD.salt demoPD.hash = .ok () :=
  c4_hash_verify_roundtrip demoRand demoPassword demoPD demoRand_spec
    (by decide) rfl

/-- C5: `HashPassword` fails with the empty-input error iff the password is
empty; on success the hash has length `keyLength` and the salt has length
`saltLength`, for every password (hence independent of its length). -/
theorem c5_hashpassword_empty_iff_and_fixed_lengths
    (randRead : Nat → Option (List Nat)) (password : List Nat)
    (hrand : ∀ n s, randRead n = some s → s.length = n) :
    (Hash.HashPassword randRead password = .error .emptyPassword ↔
      password = []) ∧
    (∀ pd, Hash.HashPassword randRead password = .ok pd →
      pd.hash.length = Hash.keyLength ∧ pd.salt.length = Hash.saltLength) := by
  constructor
  · by_cases hpw : password = []
    · simp [Hash.HashPassword, hpw]
    · cases hsalt : randRead Hash.saltLength with
      | none => simp [Hash.HashPassword, hpw, hsalt]
      | some salt => simp [Hash.HashPassword, hpw, hsalt]
  · intro pd hok
    unfold Hash.HashPassword at hok
    by_cases hpw : password = []
    · rw [if_pos hpw] at hok; exact absurd hok (by simp)
    · rw [if_neg hpw] at hok
      cases hsalt : randRead Hash.saltLength with
      | none => rw [hsalt] at hok; exact absurd hok (by simp)
      | some salt =>
          rw [hsalt] at hok
          have hpd := (Except.ok.inj hok).symm
          subst hpd
          exact ⟨Hash.argon2IDKey_length .., hrand _ _ hsalt⟩

/-- C5 witness at the concrete password `[1, 2, 3]` and RNG `demoRand`. -/
theorem c5_witness :
    (Hash.HashPassword demoRand demoPassword = .error .emptyPassword ↔
      demoPassword = []) ∧
    (∀ pd, Hash.HashPassword demoRand demoPassword = .ok pd →
      pd.hash.length = Hash.keyLength ∧ pd.salt.length = Hash.saltLength) :=
  c5_hashpassword_empty_iff_and_fixed_lengths demoRand demoPassword
    demoRand_spec

/-- C6 counterexample: at password `[]`, salt `[]` and a 32-byte expected
hash, `ComparePassword` fails with the salt-shape error, not the
empty-input error — so it is not the case that an empty password always
yields the `EmptyInput` error. -/
theorem c6_counterexample :
    Hash.ComparePassword [] [] (List.replicate 32 0) =
      .error .invalidSaltLength ∧
    Hash.HashError.invalidSaltLength ≠ Hash.HashError.emptyPassword := by
  constructor
  · rfl
  · decide

/-- C6 amended: `ComparePassword` fails with an input-shape error whenever
the salt or expected-hash length differs from the hasher's fixed lengths;
it fails with the empty-input error whenever the password is empty *and
both lengths are correct* (the shape checks run first); and only inputs
passing all three checks reach the hash recomputation and comparison. -/
theorem c6_compare_input_checks (password salt originalHash : List Nat) :
    (salt.length ≠ Hash.saltLength ∨ originalHash.length ≠ Hash.keyLength →
      Hash.ComparePassword password salt originalHash =
          .error .invalidSaltLength ∨
      Hash.ComparePassword password salt originalHash =
          .error .invalidHashLength) ∧
    (salt.length = Hash.saltLength → originalHash.length = Hash.keyLength →
      password = [] →
      Hash.ComparePassword password salt originalHash =
        .error .emptyPassword) ∧
    ((Hash.ComparePassword password salt originalHash = .ok () ∨
      Hash.ComparePassword password salt originalHash = .error .mismatch) →
      salt.length = Hash.saltLength ∧ originalHash.length = Hash.keyLength ∧
        password ≠ []) := by
  refine ⟨?_, ?_, ?_⟩
  · intro hbad
    by_cases hs : salt.length = Hash.saltLength
    · right
      rcases hbad with hbad | hbad
      · exact absurd hs hbad
      · simp [Hash.ComparePassword, hs, hbad]
    · left
      simp [Hash.ComparePassword, hs]
  · intro hs hh hpw
    simp [Hash.ComparePassword, hs, hh, hpw]
  · intro hr
    by_cases hs : salt.length = Hash.saltLength
    · by_cases hh : originalHash.length = Hash.keyLength
      · by_cases hpw : password = []
        · simp [Hash.ComparePassword, hs, hh, hpw] at hr
        · exact ⟨hs, hh, hpw⟩
      · simp [Hash.ComparePassword, hs, hh] at hr
    · simp [Hash.ComparePassword, hs] at hr

/-- C6 witness: a too-short salt is rejected with a shape error. -/
theorem c6_witness :
    Hash.ComparePassword [1] [] (List.replicate 32 0) =
        .error .invalidSaltLength ∨
    Hash.ComparePassword [1] [] (List.replicate 32 0) =
        .error .invalidHashLength :=
  (c6_compare_input_checks [1] [] (List.replicate 32 0)).1 (Or.inl (by decide))

/-! ## Claim C9 — key codec round-trip -/

/-- C9: whenever key generation succeeds at bit strength `bits`, parsing
the private-key text of the generated pair succeeds and yields a key of
strength `bits`.  `hgen` is the contract of the external
`rsa.GenerateKey`: a generated key has the requested size. -/
theorem c9_keypair_roundtrip
    (genKey : Nat → Except Unit Keygen.RSAPrivateKey) (bits : Nat)
    (kp : Keygen.KeyPair)
    (hgen : ∀ b k, genKey b = .ok k → k.bits = b)
    (hok : Keygen.GenerateRSAKeyPair genKey bits = .ok kp) :
    ∃ k, Keygen.ParseRSAPrivateKey kp.privateKey = .ok k ∧ k.bits = bits := by
  unfold Keygen.GenerateRSAKeyPair at hok
  cases hg : genKey bits with
  | error e => rw [hg] at hok; exact absurd hok (by simp)
  | ok privateKey =>
      rw [hg] at hok
      have hkp := (Except.ok.inj hok).symm
      subst hkp
      exact ⟨privateKey, rfl, hgen _ _ hg⟩

/-- C9 witness at bit strength 2048 and the model generator. -/
theorem c9_witness :
    ∃ k, Keygen.ParseRSAPrivateKey demoKeyPair.privateKey = .ok k ∧
      k.bits = 2048 :=
  c9_keypair_roundtrip demoGenKey 2048 demoKeyPair
    (by intro b k h; cases h; rfl) rfl

/-! ## Claim C3 — token issuer claims -/

/-- C3: every token the issuer returns carries all four claims — `uid`,
`email`, `app_id`, `exp` — with `exp` equal to issue time plus the
configured TTL and strictly in the future.  `hsign` is the JWS contract of
the external signing primitive: a produced token encodes exactly the
claims handed to it. -/
theorem c3_token_claims
    (sign : List (String × Jwt.ClaimVal) → Keygen.RSAPrivateKey →
      Except Unit Jwt.SignedJwt)
    (now ttl : Int) (user : Models.User) (app : Models.App)
    (t : Jwt.SignedJwt)
    (hsign : ∀ c k t0, sign c k = .ok t0 → t0.claims = c)
    (httl : 0 < ttl)
    (hok : Jwt.NewToken sign now user app ttl = .ok t) :
    Jwt.claimsLookup t.claims "uid" = some (.int user.id) ∧
    Jwt.claimsLookup t.claims "email" = some (.str user.email) ∧
    Jwt.claimsLookup t.claims "app_id" = some (.int app.id) ∧
    Jwt.claimsLookup t.claims "exp" = some (.int (now + ttl)) ∧
    now < now + ttl := by
  simp only [Jwt.NewToken] at hok
  split at hok
  · exact absurd hok (by simp)
  · split at hok
    · exact absurd hok (by simp)
    · rename_i key hkey tokenString hsig
      have ht := (Except.ok.inj hok).symm
      subst ht
      have hc := hsign _ _ _ hsig
      rw [hc]
      refine ⟨?_, ?_, ?_, ?_, by omega⟩ <;>
        simp [Jwt.mapClaimsSet, Jwt.claimsLookup]

/-- C3 witness: the token issued to `demoUser` for `demoApp` at time 100
with TTL 3600. -/
theorem c3_witness :
    Jwt.claimsLookup demoToken.claims "uid" = some (.int demoUser.id) ∧
    Jwt.claimsLookup demoToken.claims "email" =
      some (.str demoUser.email) ∧
    Jwt.claimsLookup demoToken.claims "app_id" = some (.int demoApp.id) ∧
    Jwt.claimsLookup demoToken.claims "exp" =
      some (.int ((100 : Int) + 3600)) ∧
    (100 : Int) < 100 + 3600 :=
  c3_token_claims demoSign 100 3600 demoUser demoApp demoToken
    (by intro c k t0 h; simp only [demoSign] at h; cases h; rfl)
    (by omega) rfl

/-! ## Claim C1 — Login conflates unknown email and wrong password -/

/-- C1: a Login run against a directory where the email is unknown and a
Login run against a directory where the email resolves but the password
does not verify both fail with `ErrInvalidCredentials` — the same domain
error kind, never a user-not-found kind — so the two failures are
indistinguishable to the caller. -/
theorem c1_login_failures_indistinguishable
    (userFn₁ userFn₂ : String → Except Storage.StorageError Models.User)
    (appFn : Int → Except Storage.StorageError Models.App)
    (sign : List (String × Jwt.ClaimVal) → Keygen.RSAPrivateKey →
      Except Unit Jwt.SignedJwt)
    (now ttl : Int) (email : String) (password : List Nat) (appID : Int)
    (user : Models.User) (e : Hash.HashError)
    (h₁ : userFn₁ email = .error .userNotFound)
    (h₂ : userFn₂ email = .ok user)
    (hcmp : Hash.ComparePassword password user.passwordSalt
      user.passwordHash = .error e) :
    AuthV1.Login userFn₁ appFn sign now ttl email password appID =
      .error .invalidCredentials ∧
    AuthV1.Login userFn₂ appFn sign now ttl email password appID =
      .error .invalidCredentials ∧
    AuthV1.Login userFn₁ appFn sign now ttl email password appID =
      AuthV1.Login userFn₂ appFn sign now ttl email password appID := by
  have r₁ : AuthV1.Login userFn₁ appFn sign now ttl email password appID =
      .error .invalidCredentials := by
    simp [AuthV1.Login, h₁]
  have r₂ : AuthV1.Login userFn₂ appFn sign now ttl email password appID =
      .error .invalidCredentials := by
    simp [AuthV1.Login, h₂, hcmp]
  exact ⟨r₁, r₂, r₁.trans r₂.symm⟩

/-- C1 witness: unknown email versus `demoUser` with the wrong password
`[9]`. -/
theorem c1_witness :
    AuthV1.Login demoNoUserFn demoAppFn demoSign 100 3600 "a@x.com" [9] 1 =
      .error .invalidCredentials ∧
    AuthV1.Login demoUserFn demoAppFn demoSign 100 3600 "a@x.com" [9] 1 =
      .error .invalidCredentials ∧
    AuthV1.Login demoNoUserFn demoAppFn demoSign 100 3600 "a@x.com" [9] 1 =
      AuthV1.Login demoUserFn demoAppFn demoSign 100 3600 "a@x.com" [9] 1 :=
  c1_login_failures_indistinguishable demoNoUserFn demoUserFn demoAppFn
    demoSign 100 3600 "a@x.com" [9] 1 demoUser .mismatch rfl rfl rfl

/-! ## Claim C2 — unknown app id during Login -/

/-- C2 counterexample: in the `src/internal/services/auth/auth.go`
revision, Login with valid credentials but an unprovisioned app id
returns `ErrInvalidCredentials`, not the distinguishable
`ErrInvalidAppID` the claim states. -/
theorem c2_counterexample :
    AuthV1.Login demoUserFn demoAppMissingFn demoSign 100 3600 "a@x.com"
      demoPassword 1 = .error .invalidCredentials ∧
    Auth.AuthError.invalidCredentials ≠ Auth.AuthError.invalidAppID :=
  ⟨rfl, by decide⟩

/-- C2 amended: in the `src/unnamed/part_003` revision of the service,
once the credential check has succeeded an unprovisioned app id fails with
the distinguishable `ErrInvalidAppID`; in both revisions the app lookup
happens only after the credential check (a run whose credential check
fails is independent of the app directory).  The `src/internal/services`
revision instead maps the same situation to `ErrInvalidCredentials`. -/
theorem c2_login_invalid_app_id
    (sign : List (String × Jwt.ClaimVal) → Keygen.RSAPrivateKey →
      Except Unit Jwt.SignedJwt)
    (now ttl : Int) (email : String) (password : List Nat) (appID : Int) :
    (∀ (userFn : String → Except Storage.StorageError Models.User)
       (appFn : Int → Except Storage.StorageError Models.App)
       (user : Models.User),
       userFn email = .ok user →
       Hash.ComparePassword password user.passwordSalt user.passwordHash =
         .ok () →
       appFn appID = .error .appNotFound →
       AuthV2.Login userFn appFn sign now ttl email password appID =
         .error .invalidAppID) ∧
    (∀ (userFn : String → Except Storage.StorageError Models.User)
       (appFn₁ appFn₂ : Int → Except Storage.StorageError Models.App)
       (e : Storage.StorageError),
       userFn email = .error e →
       AuthV2.Login userFn appFn₁ sign now ttl email password appID =
         AuthV2.Login userFn appFn₂ sign now ttl email password appID) ∧
    (∀ (userFn : String → Except Storage.StorageError Models.User)
       (appFn₁ appFn₂ : Int → Except Storage.StorageError Models.App)
       (user : Models.User) (e : Hash.HashError),
       userFn email = .ok user →
       Hash.ComparePassword password user.passwordSalt user.passwordHash =
         .error e →
       AuthV2.Login userFn appFn₁ sign now ttl email password appID =
         AuthV2.Login userFn appFn₂ sign now ttl email password appID) ∧
    (∀ (userFn : String → Except Storage.StorageError Models.User)
       (appFn₁ appFn₂ : Int → Except Storage.StorageError Models.App)
       (e : Storage.StorageError),
       userFn email = .error e →
       AuthV1.Login userFn appFn₁ sign now ttl email password appID =
         AuthV1.Login userFn appFn₂ sign now ttl email password appID) ∧
    (∀ (userFn : String → Except Storage.StorageError Models.User)
       (appFn₁ appFn₂ : Int → Except Storage.StorageError Models.App)
       (user : Models.User) (e : Hash.HashError),
       userFn email = .ok user →
       Hash.ComparePassword password user.passwordSalt user.passwordHash =
         .error e →
       AuthV1.Login userFn appFn₁ sign now ttl email password appID =
         AuthV1.Login userFn appFn₂ sign now ttl email password appID) := by
  refine ⟨?_, ?_, ?_, ?_, ?_⟩
  · intro userFn appFn user hu hcmp happ
    simp [AuthV2.Login, hu, hcmp, happ]
  · intro userFn appFn₁ appFn₂ e hu
    simp [AuthV2.Login, hu]
  · intro userFn appFn₁ appFn₂ user e hu hcmp
    simp [AuthV2.Login, hu, hcmp]
  · intro userFn appFn₁ appFn₂ e hu
    simp [AuthV1.Login, hu]
  · intro userFn appFn₁ appFn₂ user e hu hcmp
    simp [AuthV1.Login, hu, hcmp]

/-- C2 witness: valid credentials, app id 1 not provisioned, in the
part_003 revision. -/
theorem c2_witness :
    AuthV2.Login demoUserFn demoAppMissingFn demoSign 100 3600 "a@x.com"
      demoPassword 1 = .error .invalidAppID :=
  (c2_login_invalid_app_id demoSign 100 3600 "a@x.com" demoPassword 1).1
    demoUserFn demoAppMissingFn demoUser rfl rfl rfl

/-! ## Claim C7 — duplicate email during Register -/

/-- C7 counterexample: in the `src/internal/services/auth/auth.go`
revision, a duplicate email during Register surfaces the storage-level
`ErrUserExists` kind wrapped as-is, not a domain-level `ErrUserExists`
(that revision declares none). -/
theorem c7_counterexample :
    AuthV1.Register demoRand Sqlite.SaveUser demoDb "a@x.com" demoPassword =
      (demoDb, .error (.storageErr .userExists)) ∧
    Auth.AuthError.storageErr .userExists ≠ Auth.AuthError.userExists :=
  ⟨rfl, by decide⟩

/-- C7 amended: in the `src/unnamed/part_003` revision, a duplicate email
reported by the sqlite directory makes Register fail with the domain
`ErrUserExists` and leaves the users table unchanged (no row created), and
any other save failure propagates as an internal error distinct from the
domain `ErrUserExists`.  The `src/internal/services` revision instead
surfaces the storage-level kind unchanged. -/
theorem c7_register_user_exists :
    (∀ (db : List Sqlite.UserRow) (email : String) (password : List Nat)
       (randRead : Nat → Option (List Nat)) (salt : List Nat),
       db.any (fun r => r.email == email) = true →
       password ≠ [] →
       randRead Hash.saltLength = some salt →
       AuthV2.Register randRead Sqlite.SaveUser db email password =
         (db, .error .userExists)) ∧
    (∀ (σ : Type) (randRead : Nat → Option (List Nat))
       (saveUser : σ → String → List Nat → List Nat →
         σ × Except Storage.StorageError Int)
       (st st' : σ) (email : String) (password : List Nat)
       (pd : Hash.PasswordData) (e : Storage.StorageError),
       Hash.HashPassword randRead password = .ok pd →
       saveUser st email pd.hash pd.salt = (st', .error e) →
       e ≠ .userExists →
       AuthV2.Register randRead saveUser st email password =
         (st', .error (.storageErr e)) ∧
       Auth.AuthError.storageErr e ≠ Auth.AuthError.userExists) := by
  constructor
  · intro db email password randRead salt hdup hne hrand
    simp [AuthV2.Register, Hash.HashPassword, if_neg hne, hrand,
      Sqlite.SaveUser, hdup]
  · intro σ randRead saveUser st st' email password pd e hhash hsave hne
    constructor
    · simp [AuthV2.Register, hhash, hsave, hne]
    · simp

/-- C7 witness: registering `a@x.com` into a table already holding that
email leaves the table unchanged and fails with the domain
`ErrUserExists`. -/
theorem c7_witness :
    AuthV2.Register demoRand Sqlite.SaveUser demoDb "a@x.com" demoPassword =
      (demoDb, .error .userExists) :=
  c7_register_user_exists.1 demoDb "a@x.com" demoPassword demoRand demoSalt
    rfl (by decide) rfl

/-! ## Claim C8 — IsAdmin error translation -/

/-- C8 counterexample: in the `src/internal/services/auth/auth.go`
revision, IsAdmin on an unknown user id surfaces the storage-level
`ErrUserNotFound` kind wrapped as-is, not a domain-level error kind. -/
theorem c8_counterexample :
    AuthV1.IsAdmin demoIsAdminMissingFn 42 =
      .error (.storageErr .userNotFound) ∧
    Auth.AuthError.storageErr .userNotFound ≠ Auth.AuthError.userNotFound :=
  ⟨rfl, by decide⟩

/-- C8 amended: in the `src/unnamed/part_003` revision, IsAdmin maps a
directory user-not-found to the domain `ErrUserNotFound`, returns the
stored flag verbatim on success, and propagates every other directory
failure as an internal error distinct from the domain kind.  The
`src/internal/services` revision instead surfaces the storage-level kind
unchanged. -/
theorem c8_isadmin_translation
    (isAdminFn : Int → Except Storage.StorageError Bool) (userID : Int) :
    (isAdminFn userID = .error .userNotFound →
      AuthV2.IsAdmin isAdminFn userID = .error .userNotFound) ∧
    (∀ b, isAdminFn userID = .ok b →
      AuthV2.IsAdmin isAdminFn userID = .ok b) ∧
    (∀ e, isAdminFn userID = .error e → e ≠ .userNotFound →
      AuthV2.IsAdmin isAdminFn userID = .error (.storageErr e) ∧
      Auth.AuthError.storageErr e ≠ Auth.AuthError.userNotFound) := by
  refine ⟨?_, ?_, ?_⟩
  · intro h
    simp [AuthV2.IsAdmin, h]
  · intro b h
    simp [AuthV2.IsAdmin, h]
  · intro e h hne
    exact ⟨by simp [AuthV2.IsAdmin, h, hne], by simp⟩

/-- C8 witness: unknown user id 42 yields the domain `ErrUserNotFound` in
the part_003 revision. -/
theorem c8_witness :
    AuthV2.IsAdmin demoIsAdminMissingFn 42 = .error .userNotFound :=
  (c8_isadmin_translation demoIsAdminMissingFn 42).1 rfl

/-! ## Claim C10 — every password-verification failure maps to
`InvalidCredentials` -/

/-- C10: during Login, any failure of `ComparePassword` — hash mismatch,
empty submitted password, or a stored record with wrong-length salt/hash —
yields `ErrInvalidCredentials`; moreover no run of Login ever surfaces a
hasher error kind to the caller. -/
theorem c10_login_hash_failures_conflated
    (userFn : String → Except Storage.StorageError Models.User)
    (appFn : Int → Except Storage.StorageError Models.App)
    (sign : List (String × Jwt.ClaimVal) → Keygen.RSAPrivateKey →
      Except Unit Jwt.SignedJwt)
    (now ttl : Int) (email : String) (password : List Nat) (appID : Int)
    (user : Models.User) (e : Hash.HashError)
    (hu : userFn email = .ok user)
    (hcmp : Hash.ComparePassword password user.passwordSalt
      user.passwordHash = .error e) :
    AuthV1.Login userFn appFn sign now ttl email password appID =
      .error .invalidCredentials ∧
    (∀ e', AuthV1.Login userFn appFn sign now ttl email password appID ≠
      .error (.hashErr e')) := by
  constructor
  · simp [AuthV1.Login, hu, hcmp]
  · intro e' h
    simp only [AuthV1.Login] at h
    split at h
    · split at h <;> exact absurd h (by simp)
    · split at h
      · exact absurd h (by simp)
      · split at h
        · split at h <;> exact absurd h (by simp)
        · split at h <;> exact absurd h (by simp)

/-- C10 witness: an empty submitted password against a corrupted stored
record (empty salt and hash) still comes back as
`ErrInvalidCredentials`. -/
theorem c10_witness :
    AuthV1.Login demoCorruptUserFn demoAppFn demoSign 100 3600 "b@x.com"
      [] 1 = .error .invalidCredentials ∧
    (∀ e', AuthV1.Login demoCorruptUserFn demoAppFn demoSign 100 3600
      "b@x.com" [] 1 ≠ .error (.hashErr e')) :=
  c10_login_hash_failures_conflated demoCorruptUserFn demoAppFn demoSign
    100 3600 "b@x.com" [] 1 demoCorruptUser .invalidSaltLength rfl rfl

end SSO
